import Mathlib

set_option maxHeartbeats 1000000

/-!
Shallow embedding of the BioSync appliance-control firmware
(`ApplianceControl.ino`): EEPROM-backed credential store, WiFi/config-mode
lifecycle, and the MQTT control callback over the GPIO output bank.

Strings are modelled as lists of byte values (`List Nat`); the EEPROM is a
function from addresses to stored values.  `EEPROM.write` on the ESP8266 core
(after `EEPROM.begin(512)`) ignores out-of-range addresses and stores the
low byte of the value; `EEPROM.read` returns a byte.
-/

namespace BioSync

/-- The EEPROM contents: address → stored cell value. -/
abbrev Mem : Type := Nat → Nat

/-- `EEPROM.write(a, v)`: stores the low byte of `v` at `a` when `a < 512`
(the size passed to `EEPROM.begin`), otherwise does nothing. -/
def wr (m : Mem) (a v : Nat) : Mem :=
  if a < 512 then fun x => if x = a then v % 256 else m x else m

/-- `EEPROM.read(a)`: reads a byte. -/
def rd (m : Mem) (a : Nat) : Nat := m a % 256

/-- A run of writes `EEPROM.write(start + i, bs[i])` for `i < bs.length`,
as in the credential-saving loops. -/
def writeBytes (m : Mem) (start : Nat) : List Nat → Mem
  | [] => m
  | b :: bs => writeBytes (wr m start b) (start + 1) bs

/-- The `clearEEPROM` write loop: `for i in [0,512): EEPROM.write(i, 0)`. -/
def clearLoop (m : Mem) : Mem := (List.range 512).foldl (fun m' i => wr m' i 0) m

/-- `EEPROM_MAGIC = 0xCD34`. -/
def EEPROM_MAGIC : Nat := 0xCD34

/-- The default control password `"appliances123"` as ASCII bytes. -/
def defaultControlPassword : List Nat :=
  [97, 112, 112, 108, 105, 97, 110, 99, 101, 115, 49, 50, 51]

/-- The firmware's credential globals: `ssid_stored`, `password_stored`,
`control_password_stored`. -/
structure CredState where
  ssid_stored : List Nat
  password_stored : List Nat
  control_password_stored : List Nat
  deriving Repr, DecidableEq

/-- The globals as initialised at program start (before `setup()` loads
anything): empty WiFi credentials and the default control password. -/
def bootState : CredState := ⟨[], [], defaultControlPassword⟩

/-- `(EEPROM.read(200) << 8) | EEPROM.read(201)` in `loadCredentials`. -/
def readMagic (m : Mem) : Nat := Nat.lor (Nat.shiftLeft (rd m 200) 8) (rd m 201)

/-- The byte run `EEPROM.read(start + i)` for `i < len`, as read by the
credential-loading loops. -/
def readBytes (m : Mem) (start len : Nat) : List Nat :=
  (List.range len).map (fun i => rd m (start + i))

/-- `loadCredentials()`: checks the magic marker; on mismatch leaves the
globals unchanged; otherwise appends the length-prefixed SSID (offset 0)
and password (offset 100) to the globals when their length bytes lie in
`(0, 100)`. -/
def loadCredentials (st : CredState) (m : Mem) : CredState :=
  if readMagic m ≠ EEPROM_MAGIC then st
  else
    let ssidLength := rd m 0
    let st1 :=
      if 0 < ssidLength ∧ ssidLength < 100 then
        { st with ssid_stored := st.ssid_stored ++ readBytes m 1 ssidLength }
      else st
    let passwordLength := rd m 100
    if 0 < passwordLength ∧ passwordLength < 100 then
      { st1 with password_stored := st1.password_stored ++ readBytes m 101 passwordLength }
    else st1

/-- `saveCredentials(ssid, password)`: zeroes the region, writes the
length-prefixed SSID at offset 0, the length-prefixed password at offset
100, the current `control_password_stored` at offset 300, then the magic
marker at offsets 200–201. -/
def saveCredentials (ssid password : List Nat) (st : CredState) (m : Mem) : Mem :=
  let m1 := clearLoop m
  let m2 := wr m1 0 ssid.length
  let m3 := writeBytes m2 1 ssid
  let m4 := wr m3 100 password.length
  let m5 := writeBytes m4 101 password
  let m6 := wr m5 300 st.control_password_stored.length
  let m7 := writeBytes m6 301 st.control_password_stored
  let m8 := wr m7 200 ((EEPROM_MAGIC >>> 8) % 256)
  wr m8 201 (EEPROM_MAGIC % 256)

/-- `loadControlPassword()`: reads the length byte at offset 300; when it
lies in `(0, 50)` replaces `control_password_stored` with the bytes at
offset 301; otherwise leaves the global (the default) unchanged.  It does
not check the magic marker. -/
def loadControlPassword (st : CredState) (m : Mem) : CredState :=
  let passwordLength := rd m 300
  if 0 < passwordLength ∧ passwordLength < 50 then
    { st with control_password_stored := readBytes m 301 passwordLength }
  else st

/-- `saveControlPassword(password)`: updates the in-memory global and
writes only the length byte at offset 300 and the bytes from offset 301. -/
def saveControlPassword (password : List Nat) (st : CredState) (m : Mem) :
    CredState × Mem :=
  ({ st with control_password_stored := password },
   writeBytes (wr m 300 password.length) 301 password)

/-- `validateControlPassword(password)`: exact string comparison with the
in-memory control password. -/
def validateControlPassword (st : CredState) (password : List Nat) : Bool :=
  password == st.control_password_stored

/-- The boot-time load sequence from `setup()`: `loadCredentials()` then
`loadControlPassword()`, starting from the program-start globals. -/
def bootLoad (m : Mem) : CredState :=
  loadControlPassword (loadCredentials bootState m) m

/-- The spec's `StoredCredentials` view of a load: the loaded network
fields together with `valid`, which holds exactly when the persisted magic
marker matches. -/
structure StoredCredentials where
  networkName : List Nat
  networkSecret : List Nat
  valid : Bool
  deriving Repr, DecidableEq

/-- `load()` in the spec's vocabulary: boot-time `loadCredentials()` from
fresh globals, with `valid` derived from the magic-marker comparison the
code performs. -/
def load (m : Mem) : StoredCredentials :=
  let st := loadCredentials bootState m
  ⟨st.ssid_stored, st.password_stored, readMagic m == EEPROM_MAGIC⟩

/-! ## Output bank and MQTT control callback -/

/-- ASCII lower-casing of one byte, as used by `strcasecmp`. -/
def lowerByte (b : Nat) : Nat := if 65 ≤ b ∧ b ≤ 90 then b + 32 else b

/-- `strcasecmp(a, b) == 0`: equality up to ASCII case. -/
def strcaseEq (a b : List Nat) : Bool := a.map lowerByte == b.map lowerByte

/-- The names of `pinMap[]`: `"d0"` … `"d8"` as ASCII bytes. -/
def pinNames : List (List Nat) :=
  [[100, 48], [100, 49], [100, 50], [100, 51], [100, 52],
   [100, 53], [100, 54], [100, 55], [100, 56]]

/-- `pinCount = sizeof(pinMap) / sizeof(pinMap[0])`. -/
def pinCount : Nat := pinNames.length

/-- `"on"` as ASCII bytes. -/
def onStr : List Nat := [111, 110]

/-- `"off"` as ASCII bytes. -/
def offStr : List Nat := [111, 102, 102]

/-- `"high"` as ASCII bytes. -/
def highStr : List Nat := [104, 105, 103, 104]

/-- The output bank: the logical HIGH/LOW state of the pin at each
`pinMap` index (`true` = HIGH). -/
abbrev Bank : Type := List Bool

/-- The requested level for one pin entry:
`strcasecmp(value, "on") == 0 || strcasecmp(value, "high") == 0` → HIGH,
anything else → LOW. -/
def desiredState (value : List Nat) : Bool :=
  strcaseEq value onStr || strcaseEq value highStr

/-- One iteration of the callback's inner pin loop: find the first
`pinMap` entry whose name matches the label case-insensitively, write the
requested level to it, and stop; no match leaves the bank unchanged. -/
def applyEntry (bank : Bank) (label value : List Nat) : Bank :=
  match pinNames.findIdx? (fun nm => strcaseEq nm label) with
  | some i => bank.set i (desiredState value)
  | none => bank

/-- A successfully parsed control message: the optional `password` field
and the `pins` object as an ordered list of key/value pairs. -/
structure ControlDoc where
  password : Option (List Nat)
  pins : List (List Nat × List Nat)
  deriving Repr, DecidableEq

/-- `publish_state()`: the JSON payload mapping each `pinMap` name to
`"on"`/`"off"` according to the pin's current level. -/
def publish_state (bank : Bank) : List (List Nat × List Nat) :=
  (List.range pinCount).map
    (fun i => (pinNames.getD i [], if bank.getD i false then onStr else offStr))

/-- The MQTT `callback` after a successful JSON parse: reads
`doc["password"] | ""`, rejects the whole message when
`validateControlPassword` fails (returning the bank unchanged and
publishing nothing), otherwise applies every pin entry in order and
publishes the resulting state. -/
def callback (st : CredState) (doc : ControlDoc) (bank : Bank) :
    Bank × Option (List (List Nat × List Nat)) :=
  if validateControlPassword st (doc.password.getD []) then
    let bank' := doc.pins.foldl (fun b kv => applyEntry b kv.1 kv.2) bank
    (bank', some (publish_state bank'))
  else (bank, none)

/-! ## WiFi lifecycle -/

/-- The polling loop `while (WiFi.status() != WL_CONNECTED && timeout < bound)`,
driven by the environment parameter `connectedAt`: the first poll index at
which the station link reads connected.  `remaining` is `bound - timeout`;
the result is the final value of `timeout`. -/
def connectWait (connectedAt : Nat) : Nat → Nat → Nat
  | 0, timeout => timeout
  | r + 1, timeout =>
      if connectedAt ≤ timeout then timeout
      else connectWait connectedAt r (timeout + 1)

/-- Whether `connectToWiFi()`'s 40-poll wait ends with the link up. -/
def connectToWiFiSucceeds (connectedAt : Nat) : Bool :=
  connectedAt ≤ connectWait connectedAt 40 0

/-- Whether `handleConnect()`'s 20-poll wait ends with the link up. -/
def handleConnectSucceeds (connectedAt : Nat) : Bool :=
  connectedAt ≤ connectWait connectedAt 20 0

/-- The mode flag of the device: `configMode = true` is provisioning
(config) mode, `false` is operational mode. -/
structure DeviceState where
  configMode : Bool
  deriving Repr, DecidableEq

/-- `startConfigMode()`: sets `configMode = true` (and starts the AP and
web server, outside this model). -/
def startConfigMode (st : DeviceState) : DeviceState := { st with configMode := true }

/-- `connectToWiFi()`: runs the 40-poll bounded wait; on success arms MQTT
and keeps the mode; on timeout calls `startConfigMode()`. -/
def connectToWiFi (connectedAt : Nat) (st : DeviceState) : DeviceState :=
  if connectToWiFiSucceeds connectedAt then st else startConfigMode st

/-- `handleConnect()`: runs a 20-poll bounded wait on the candidate
credentials; on success saves them to EEPROM, answers `success:true` and
restarts; on failure answers `success:false` without touching the EEPROM
and without restarting.  Result: (EEPROM after, reported success, restarts). -/
def handleConnect (connectedAt : Nat) (ssid password : List Nat)
    (st : CredState) (m : Mem) : Mem × Bool × Bool :=
  if handleConnectSucceeds connectedAt then
    (saveCredentials ssid password st m, true, true)
  else (m, false, false)

/-- One iteration of `loop()`, restricted to its mode handling: in config
mode it only services HTTP; otherwise, when `WiFi.status()` reports the
link down (`wifiUp = false`) it calls `connectToWiFi()`. -/
def loopStep (wifiUp : Bool) (connectedAt : Nat) (st : DeviceState) : DeviceState :=
  if st.configMode then st
  else if !wifiUp then connectToWiFi connectedAt st
  else st

/-- A concrete corrupt EEPROM image: no magic marker, but the cell at the
control-password offset 300 holds length 1 and cell 301 holds byte 120
(ASCII `x`). -/
def corruptMem : Mem := fun a => if a = 300 then 1 else if a = 301 then 120 else 0

/-! ## Pointwise characterisation of the EEPROM primitives -/

theorem wr_apply (m : Mem) (a v x : Nat) :
    wr m a v x = if a < 512 ∧ x = a then v % 256 else m x := by
  unfold wr
  split_ifs with h1 h2 h3 <;> simp_all

theorem writeBytes_apply (m : Mem) (start : Nat) (bs : List Nat) (x : Nat) :
    writeBytes m start bs x =
      if start ≤ x ∧ x - start < bs.length ∧ x < 512 then bs.getD (x - start) 0 % 256
      else m x := by
  induction bs generalizing m start with
  | nil => simp [writeBytes]
  | cons b bs ih =>
      rw [writeBytes, ih, wr_apply]
      simp only [List.length_cons]
      rcases Nat.lt_trichotomy x start with hx | hx | hx
      · rw [if_neg (by omega), if_neg (by omega), if_neg (by omega)]
      · subst hx
        by_cases h5 : x < 512
        · rw [if_neg (by omega), if_pos (by omega), if_pos (by omega), Nat.sub_self,
            List.getD_cons_zero]
        · rw [if_neg (by omega), if_neg (by omega), if_neg (by omega)]
      · have h3 : x - start = (x - (start + 1)) + 1 := by omega
        by_cases h5 : x - (start + 1) < bs.length ∧ x < 512
        · rw [if_pos (by omega), if_pos (by omega), h3, List.getD_cons_succ]
        · rw [if_neg (by omega), if_neg (by omega), if_neg (by omega)]

theorem clearFold_apply (n : Nat) (m : Mem) (x : Nat) :
    ((List.range n).foldl (fun m' i => wr m' i 0) m) x =
      if x < n ∧ x < 512 then 0 else m x := by
  induction n generalizing m with
  | zero => simp
  | succ n ih =>
      rw [List.range_succ, List.foldl_append, List.foldl_cons, List.foldl_nil, wr_apply, ih]
      split_ifs <;> first | rfl | omega

theorem clearLoop_apply (m : Mem) (x : Nat) :
    clearLoop m x = if x < 512 then 0 else m x := by
  rw [clearLoop, clearFold_apply]
  by_cases h : x < 512 <;> simp [h]

/-! ## Pointwise reads of the saved credential region -/

theorem rd_save_0 (ssid password : List Nat) (st : CredState) (m : Mem) :
    rd (saveCredentials ssid password st m) 0 = ssid.length % 256 := by
  simp only [saveCredentials, rd, wr_apply, writeBytes_apply, clearLoop_apply]
  norm_num

theorem rd_save_ssid (ssid password : List Nat) (st : CredState) (m : Mem) (a : Nat)
    (ha1 : 1 ≤ a) (ha2 : a - 1 < ssid.length) (hn : ssid.length ≤ 99) :
    rd (saveCredentials ssid password st m) a = ssid.getD (a - 1) 0 % 256 := by
  simp only [saveCredentials, rd, wr_apply, writeBytes_apply, clearLoop_apply]
  norm_num
  split_ifs <;> omega

theorem rd_save_100 (ssid password : List Nat) (st : CredState) (m : Mem) :
    rd (saveCredentials ssid password st m) 100 = password.length % 256 := by
  simp only [saveCredentials, rd, wr_apply, writeBytes_apply, clearLoop_apply]
  norm_num

theorem rd_save_password (ssid password : List Nat) (st : CredState) (m : Mem) (a : Nat)
    (ha1 : 101 ≤ a) (ha2 : a - 101 < password.length) (hs : password.length ≤ 99) :
    rd (saveCredentials ssid password st m) a = password.getD (a - 101) 0 % 256 := by
  simp only [saveCredentials, rd, wr_apply, writeBytes_apply, clearLoop_apply]
  norm_num
  split_ifs <;> omega

theorem rd_save_200 (ssid password : List Nat) (st : CredState) (m : Mem) :
    rd (saveCredentials ssid password st m) 200 = 205 := by
  simp only [saveCredentials, EEPROM_MAGIC, rd, wr_apply, writeBytes_apply, clearLoop_apply]
  norm_num
  decide

theorem rd_save_201 (ssid password : List Nat) (st : CredState) (m : Mem) :
    rd (saveCredentials ssid password st m) 201 = 52 := by
  simp only [saveCredentials, EEPROM_MAGIC, rd, wr_apply, writeBytes_apply, clearLoop_apply]
  norm_num

theorem readMagic_save (ssid password : List Nat) (st : CredState) (m : Mem) :
    readMagic (saveCredentials ssid password st m) = EEPROM_MAGIC := by
  rw [readMagic, rd_save_200 ssid password st m, rd_save_201 ssid password st m]
  decide

theorem readBytes_save_ssid (ssid password : List Nat) (st : CredState) (m : Mem)
    (hn : ssid.length ≤ 99) (hb : ∀ b ∈ ssid, b < 256) :
    readBytes (saveCredentials ssid password st m) 1 ssid.length = ssid := by
  apply List.ext_getElem
  · simp [readBytes]
  · intro i h1 h2
    simp only [readBytes, List.getElem_map, List.getElem_range]
    have e : 1 + i - 1 = i := by omega
    rw [rd_save_ssid ssid password st m (1 + i) (by omega) (by omega) hn, e,
      List.getD_eq_getElem ssid 0 h2, Nat.mod_eq_of_lt (hb _ (ssid.getElem_mem h2))]

theorem readBytes_save_password (ssid password : List Nat) (st : CredState) (m : Mem)
    (hs : password.length ≤ 99) (hb : ∀ b ∈ password, b < 256) :
    readBytes (saveCredentials ssid password st m) 101 password.length = password := by
  apply List.ext_getElem
  · simp [readBytes]
  · intro i h1 h2
    simp only [readBytes, List.getElem_map, List.getElem_range]
    have e : 101 + i - 101 = i := by omega
    rw [rd_save_password ssid password st m (101 + i) (by omega) (by omega) hs, e,
      List.getD_eq_getElem password 0 h2, Nat.mod_eq_of_lt (hb _ (password.getElem_mem h2))]

/-! ## Reads of the control-password sub-region -/

theorem rd_saveControl_300 (pw : List Nat) (st : CredState) (m : Mem) :
    rd (saveControlPassword pw st m).2 300 = pw.length % 256 := by
  simp only [saveControlPassword, rd, writeBytes_apply, wr_apply]
  norm_num

theorem rd_saveControl_pw (pw : List Nat) (st : CredState) (m : Mem) (a : Nat)
    (ha1 : 301 ≤ a) (ha2 : a - 301 < pw.length) (ha3 : a < 512) :
    rd (saveControlPassword pw st m).2 a = pw.getD (a - 301) 0 % 256 := by
  simp only [saveControlPassword, rd, writeBytes_apply, wr_apply]
  split_ifs <;> omega

theorem readBytes_length (m : Mem) (start len : Nat) :
    (readBytes m start len).length = len := by
  simp [readBytes]

theorem readBytes_saveControl (pw : List Nat) (st : CredState) (m : Mem)
    (hl : pw.length ≤ 211) (hb : ∀ b ∈ pw, b < 256) :
    readBytes (saveControlPassword pw st m).2 301 pw.length = pw := by
  apply List.ext_getElem
  · simp [readBytes]
  · intro i h1 h2
    simp only [readBytes, List.getElem_map, List.getElem_range]
    have e : 301 + i - 301 = i := by omega
    rw [rd_saveControl_pw pw st m (301 + i) (by omega) (by omega) (by omega), e,
      List.getD_eq_getElem pw 0 h2, Nat.mod_eq_of_lt (hb _ (pw.getElem_mem h2))]

/-! ## Load helpers -/

theorem loadCredentials_control (st : CredState) (m : Mem) :
    (loadCredentials st m).control_password_stored = st.control_password_stored := by
  simp only [loadCredentials]
  split_ifs <;> rfl

theorem bootLoad_control (m : Mem) :
    (bootLoad m).control_password_stored =
      if 0 < rd m 300 ∧ rd m 300 < 50 then readBytes m 301 (rd m 300)
      else defaultControlPassword := by
  rw [bootLoad, loadControlPassword]
  split_ifs with h
  · rfl
  · exact loadCredentials_control bootState m

/-! ## Connect-wait loop -/

theorem connectWait_eq (k r t : Nat) :
    connectWait k r t = if k ≤ t then t else min k (t + r) := by
  induction r generalizing t with
  | zero =>
      rw [connectWait]
      split_ifs <;> omega
  | succ r ih =>
      rw [connectWait]
      split_ifs with h
      · rfl
      · rw [ih]
        split_ifs with h2 <;> omega

theorem connectToWiFiSucceeds_iff (k : Nat) :
    connectToWiFiSucceeds k = decide (k ≤ 40) := by
  simp only [connectToWiFiSucceeds, connectWait_eq]
  rw [decide_eq_decide]
  split_ifs with h <;> omega

theorem handleConnectSucceeds_iff (k : Nat) :
    handleConnectSucceeds k = decide (k ≤ 20) := by
  simp only [handleConnectSucceeds, connectWait_eq]
  rw [decide_eq_decide]
  split_ifs with h <;> omega

/-! ## Callback helpers -/

theorem applyEntry_of_none (bank : Bank) (label value : List Nat)
    (h : (pinNames.findIdx? fun nm => strcaseEq nm label) = none) :
    applyEntry bank label value = bank := by
  unfold applyEntry
  rw [h]

theorem foldl_applyEntry_filter (l : List (List Nat × List Nat)) (bank : Bank) :
    l.foldl (fun b kv => applyEntry b kv.1 kv.2) bank =
      (l.filter fun kv => (pinNames.findIdx? fun nm => strcaseEq nm kv.1).isSome).foldl
        (fun b kv => applyEntry b kv.1 kv.2) bank := by
  induction l generalizing bank with
  | nil => rfl
  | cons kv rest ih =>
      rcases hidx : pinNames.findIdx? fun nm => strcaseEq nm kv.1 with _ | i
      · rw [List.foldl_cons, applyEntry_of_none bank kv.1 kv.2 hidx, ih,
          List.filter_cons_of_neg (by simp [hidx])]
      · rw [List.foldl_cons, List.filter_cons_of_pos (by simp [hidx]), List.foldl_cons, ih]

/-! ## Claim theorems -/

/-- C1: a control command whose embedded password fails validation against
the stored control password changes no output-pin state and publishes
nothing — the whole command is discarded, no matter how many well-formed
pin entries it contains. -/
theorem unauthenticated_command_discarded (st : CredState) (doc : ControlDoc) (bank : Bank)
    (h : validateControlPassword st (doc.password.getD []) = false) :
    callback st doc bank = (bank, none) := by
  simp [callback, h]

/-- C1 witness: a command with wrong password `"x"` and a well-formed
`d0 → on` entry leaves an all-LOW bank unchanged and publishes nothing. -/
theorem unauthenticated_command_discarded_witness :
    callback bootState ⟨some [120], [([100, 48], [111, 110])]⟩ (List.replicate 9 false) =
      (List.replicate 9 false, none) :=
  unauthenticated_command_discarded bootState ⟨some [120], [([100, 48], [111, 110])]⟩
    (List.replicate 9 false) (by decide)

/-- C6: an authenticated command is processed as if the entries whose pin
name matches no `pinMap` entry were absent: every unknown entry is ignored
individually, and the known entries all still apply, in order. -/
theorem authenticated_command_partial_key_tolerance (st : CredState) (doc : ControlDoc)
    (bank : Bank) (h : validateControlPassword st (doc.password.getD []) = true) :
    (callback st doc bank).1 =
      (doc.pins.filter fun kv => (pinNames.findIdx? fun nm => strcaseEq nm kv.1).isSome).foldl
        (fun b kv => applyEntry b kv.1 kv.2) bank := by
  simp only [callback, h, if_true]
  exact foldl_applyEntry_filter doc.pins bank

/-- C6 witness: the command `{password: "appliances123", pins: {d0: "on",
d9: "on"}}` applies the known `d0` entry and ignores the unknown `d9`
entry: the result equals processing the command with `d9` filtered out,
namely the all-LOW bank with pin 0 set HIGH. -/
theorem authenticated_command_partial_key_tolerance_witness :
    (callback bootState
        ⟨some defaultControlPassword, [([100, 48], [111, 110]), ([100, 57], [111, 110])]⟩
        (List.replicate 9 false)).1 =
      ([([100, 48], [111, 110]), ([100, 57], [111, 110])].filter
          fun kv => (pinNames.findIdx? fun nm => strcaseEq nm kv.1).isSome).foldl
        (fun b kv => applyEntry b kv.1 kv.2) (List.replicate 9 false) ∧
      (callback bootState
        ⟨some defaultControlPassword, [([100, 48], [111, 110]), ([100, 57], [111, 110])]⟩
        (List.replicate 9 false)).1 =
        [true, false, false, false, false, false, false, false, false] :=
  ⟨authenticated_command_partial_key_tolerance bootState
      ⟨some defaultControlPassword, [([100, 48], [111, 110]), ([100, 57], [111, 110])]⟩
      (List.replicate 9 false) (by decide),
   by decide⟩

/-- C7: every published state payload has exactly one entry per configured
pin — its keys are exactly `pinNames`, in order — and every value is
`"on"` or `"off"`, for any bank contents. -/
theorem publish_state_complete (bank : Bank) :
    (publish_state bank).map Prod.fst = pinNames ∧
      ((publish_state bank).all fun kv => kv.2 == onStr || kv.2 == offStr) = true := by
  constructor
  · simp only [publish_state, List.map_map]
    rfl
  · simp only [publish_state, List.all_eq_true, List.mem_map, List.mem_range]
    rintro kv ⟨i, hi, rfl⟩
    cases hb : bank.getD i false <;> simp [hb]

/-- C9: a control command with no `password` field is read as carrying the
empty-string password, so it authenticates exactly when the stored control
password is the empty string; under any non-empty stored control password
the command is discarded without touching the bank. -/
theorem passwordless_command (st : CredState) (doc : ControlDoc) (bank : Bank)
    (h : doc.password = none) :
    doc.password.getD [] = [] ∧
      (validateControlPassword st (doc.password.getD []) = true ↔
        st.control_password_stored = []) ∧
      (st.control_password_stored ≠ [] → callback st doc bank = (bank, none)) := by
  refine ⟨by rw [h]; rfl, ?_, ?_⟩
  · rw [h]
    simp only [Option.getD_none, validateControlPassword, beq_iff_eq]
    exact eq_comm
  · intro hne
    have hv : validateControlPassword st (doc.password.getD []) = false := by
      rw [h]
      simp only [Option.getD_none, validateControlPassword]
      exact beq_eq_false_iff_ne.mpr fun e => hne e.symm
    simp [callback, hv]

/-- C9 witness: with the default (non-empty) control password stored, a
command with no password field and a well-formed `d0 → on` entry is
discarded without changing the bank. -/
theorem passwordless_command_witness :
    callback bootState ⟨none, [([100, 48], [111, 110])]⟩ (List.replicate 9 false) =
      (List.replicate 9 false, none) :=
  (passwordless_command bootState ⟨none, [([100, 48], [111, 110])]⟩
      (List.replicate 9 false) rfl).2.2 (by decide)

/-- C2: for any network name and secret of at most 99 bytes each,
`saveCredentials` followed by a boot-time load yields exactly the saved
name and secret with a matching validity marker. -/
theorem saveNetwork_load_roundtrip (n s : List Nat) (st : CredState) (m : Mem)
    (hn : n.length ≤ 99) (hs : s.length ≤ 99)
    (hbn : ∀ b ∈ n, b < 256) (hbs : ∀ b ∈ s, b < 256) :
    load (saveCredentials n s st m) = ⟨n, s, true⟩ := by
  have hmagic := readMagic_save n s st m
  have h0 : rd (saveCredentials n s st m) 0 = n.length := by
    rw [rd_save_0]
    omega
  have h100 : rd (saveCredentials n s st m) 100 = s.length := by
    rw [rd_save_100]
    omega
  have hrn := readBytes_save_ssid n s st m hn hbn
  have hrs := readBytes_save_password n s st m hs hbs
  simp only [load, loadCredentials, hmagic, h0, h100, hrn, hrs, ne_eq, not_true_eq_false,
    if_false, beq_self_eq_true, bootState]
  split_ifs with h1 h2 h3
  · simp
  · have hn0 : n = [] := List.eq_nil_of_length_eq_zero (by omega)
    simp [hn0]
  · have hs0 : s = [] := List.eq_nil_of_length_eq_zero (by omega)
    simp [hs0]
  · have hn0 : n = [] := List.eq_nil_of_length_eq_zero (by omega)
    have hs0 : s = [] := List.eq_nil_of_length_eq_zero (by omega)
    simp [hn0, hs0]

/-- C2 witness: saving `("Home", "secret1")` over an all-zero EEPROM and
loading back yields exactly those credentials, marked valid. -/
theorem saveNetwork_load_roundtrip_witness :
    load (saveCredentials [72, 111, 109, 101] [115, 101, 99, 114, 101, 116, 49]
        bootState (fun _ => 0)) =
      ⟨[72, 111, 109, 101], [115, 101, 99, 114, 101, 116, 49], true⟩ :=
  saveNetwork_load_roundtrip [72, 111, 109, 101] [115, 101, 99, 114, 101, 116, 49]
    bootState (fun _ => 0) (by decide) (by decide) (by decide) (by decide)

/-- C8: `saveControlPassword` writes only from offset 300 on: every EEPROM
cell below 300 — the network-name region (0–99), the network-secret region
(100–199) and the magic-marker cells (200–201) — is byte-for-byte
unchanged, for any new password within the loadable length limit. -/
theorem saveControlPassword_frame (pw : List Nat) (st : CredState) (m : Mem) (a : Nat)
    (hlen : pw.length ≤ 49) (ha : a < 300) :
    (saveControlPassword pw st m).2 a = m a := by
  simp only [saveControlPassword, writeBytes_apply, wr_apply]
  split_ifs <;> first | rfl | omega

/-- C8 witness: saving a one-byte control password over a constant-7
EEPROM leaves the magic-marker cell 200 at its old value. -/
theorem saveControlPassword_frame_witness :
    (saveControlPassword [120] bootState (fun _ => 7)).2 200 = 7 :=
  saveControlPassword_frame [120] bootState (fun _ => 7) 200 (by decide) (by decide)

/-- C10: the control-password round trip through the EEPROM —
`saveControlPassword(s)` then a reboot's `bootLoad` — returns `s` exactly
when `s` has length in `[1, 49]`; in particular saving the empty string
stores a zero length byte, which the loader treats as no data, so the
control password reverts to the default `"appliances123"`. -/
theorem saveControlPassword_roundtrip (pw : List Nat) (st : CredState) (m : Mem)
    (hb : ∀ b ∈ pw, b < 256) :
    ((bootLoad (saveControlPassword pw st m).2).control_password_stored = pw ↔
      1 ≤ pw.length ∧ pw.length ≤ 49) ∧
      (pw = [] →
        (bootLoad (saveControlPassword pw st m).2).control_password_stored =
          defaultControlPassword) := by
  rw [bootLoad_control, rd_saveControl_300]
  constructor
  · constructor
    · intro heq
      by_contra hlen
      rcases Nat.lt_or_ge pw.length 256 with hsmall | hbig
      · rw [Nat.mod_eq_of_lt hsmall] at heq
        by_cases hc : 0 < pw.length ∧ pw.length < 50
        · omega
        · rw [if_neg hc] at heq
          have : pw.length = 13 := by rw [← heq]; rfl
          omega
      · have hm : pw.length % 256 < 256 := Nat.mod_lt _ (by omega)
        by_cases hc : 0 < pw.length % 256 ∧ pw.length % 256 < 50
        · rw [if_pos hc] at heq
          have h5 := congrArg List.length heq
          rw [readBytes_length] at h5
          omega
        · rw [if_neg hc] at heq
          have : pw.length = 13 := by rw [← heq]; rfl
          omega
    · rintro ⟨h1, h2⟩
      rw [Nat.mod_eq_of_lt (by omega), if_pos ⟨h1, by omega⟩]
      exact readBytes_saveControl pw st m (by omega) hb
  · rintro rfl
    simp

/-- C10 witness: saving the two-byte password `"ab"` round-trips to
`"ab"`, and saving the empty password reverts to the default after
reboot. -/
theorem saveControlPassword_roundtrip_witness :
    ((bootLoad (saveControlPassword [97, 98] bootState (fun _ => 0)).2).control_password_stored
        = [97, 98] ↔ 1 ≤ ([97, 98] : List Nat).length ∧ ([97, 98] : List Nat).length ≤ 49) ∧
      (bootLoad (saveControlPassword [] bootState (fun _ => 0)).2).control_password_stored =
        defaultControlPassword :=
  ⟨(saveControlPassword_roundtrip [97, 98] bootState (fun _ => 0) (by decide)).1,
   (saveControlPassword_roundtrip [] bootState (fun _ => 0) (by decide)).2 rfl⟩

/-- C3 counterexample: in Operational mode (`configMode = false`), one
supervisor-loop iteration with the station link down and a link that does
not come back within the 40-poll bound ends with `configMode = true` — the
device is demoted to provisioning mode, contradicting the claim that the
mode stays Operational for every outcome of the reconnection attempt. -/
theorem operational_link_loss_demotes :
    (loopStep false 41 ⟨false⟩).configMode = true := by decide

/-- C3 amended: on link loss the supervisor loop re-invokes
`connectToWiFi` in place; the device stays Operational exactly when the
bounded 40-poll attempt succeeds, and on timeout `connectToWiFi` falls
back to `startConfigMode`, demoting the device to provisioning mode. -/
theorem loopStep_mode (wifiUp : Bool) (k : Nat) :
    (loopStep wifiUp k ⟨false⟩).configMode = (!wifiUp && !(connectToWiFiSucceeds k)) := by
  cases wifiUp
  · simp only [loopStep, connectToWiFi, Bool.not_false, Bool.true_and, if_true]
    by_cases h : connectToWiFiSucceeds k = true
    · simp [h]
    · simp only [Bool.not_eq_true] at h
      simp [h, startConfigMode]
  · simp [loopStep]

/-- C4 counterexample: on `corruptMem` the magic marker mismatches, yet
the boot-time load does not leave the control password at the well-known
default: `loadControlPassword` ignores the marker and reads `"x"` from
the raw bytes, refuting the claim that the control secret equals the
default regardless of the raw bytes of an invalid region. -/
theorem corrupt_region_control_not_default :
    readMagic corruptMem ≠ EEPROM_MAGIC ∧
      (bootLoad corruptMem).control_password_stored ≠ defaultControlPassword := by decide

/-- C4 amended: when the persisted magic marker mismatches, loading at
boot yields the empty/defaulted network credentials — name and secret
empty, `valid = false` — regardless of the raw bytes, and it never fails
(all loaders are total functions); the control password, however, is
loaded without consulting the marker: it equals the well-known default
exactly when the length byte at offset 300 lies outside `(0, 50)`, and is
otherwise read from the raw bytes at offset 301. -/
theorem invalid_marker_load (m : Mem) (h : readMagic m ≠ EEPROM_MAGIC) :
    load m = ⟨[], [], false⟩ ∧
      (bootLoad m).ssid_stored = [] ∧
      (bootLoad m).password_stored = [] ∧
      (bootLoad m).control_password_stored =
        (if 0 < rd m 300 ∧ rd m 300 < 50 then readBytes m 301 (rd m 300)
         else defaultControlPassword) := by
  have hlc : loadCredentials bootState m = bootState := by
    rw [loadCredentials, if_pos h]
  refine ⟨?_, ?_, ?_, bootLoad_control m⟩
  · simp only [load]
    rw [hlc, beq_eq_false_iff_ne.mpr h]
    rfl
  · rw [bootLoad, loadControlPassword]
    split_ifs <;> exact congrArg CredState.ssid_stored hlc
  · rw [bootLoad, loadControlPassword]
    split_ifs <;> exact congrArg CredState.password_stored hlc

/-- C4 amended witness: on the corrupt image the load yields empty,
invalid network credentials and a control password read from the raw
bytes. -/
theorem invalid_marker_load_witness :
    load corruptMem = ⟨[], [], false⟩ ∧
      (bootLoad corruptMem).ssid_stored = [] ∧
      (bootLoad corruptMem).password_stored = [] ∧
      (bootLoad corruptMem).control_password_stored =
        (if 0 < rd corruptMem 300 ∧ rd corruptMem 300 < 50 then
          readBytes corruptMem 301 (rd corruptMem 300)
         else defaultControlPassword) :=
  invalid_marker_load corruptMem (by decide)

/-- C5 counterexample: a station link that first reads connected at poll
21 succeeds under `connectToWiFi`'s 40-poll bound but fails under
`handleConnect`'s 20-poll bound — the two bounded attempts do not have the
same attempt count, so identical link behaviour can give different
outcomes. -/
theorem connect_attempt_bounds_differ :
    connectToWiFiSucceeds 21 = true ∧ handleConnectSucceeds 21 = false := by decide

/-- C5 amended: the provisioning Connect handler performs a bounded
connection attempt of the same shape as the lifecycle controller's but
with 20 polls instead of 40 (so a link needing 21–40 polls succeeds for
the controller and fails for the handler); on success it persists the
candidate credentials via `saveCredentials` and schedules a restart, and
on failure it reports failure with the EEPROM untouched and no restart. -/
theorem handleConnect_behavior (k : Nat) (ssid password : List Nat)
    (st : CredState) (m : Mem) :
    handleConnectSucceeds k = decide (k ≤ 20) ∧
      connectToWiFiSucceeds k = decide (k ≤ 40) ∧
      handleConnect k ssid password st m =
        (if k ≤ 20 then (saveCredentials ssid password st m, true, true)
         else (m, false, false)) := by
  refine ⟨handleConnectSucceeds_iff k, connectToWiFiSucceeds_iff k, ?_⟩
  rw [handleConnect, handleConnectSucceeds_iff]
  by_cases h : k ≤ 20 <;> simp [h]

end BioSync
